import Mathlib

/-!
Verification of the core algorithms of the `real-estate-scraper` repository
(`scraper.py`, `scrape_logger.py`, `market_analysis.py`, `app.py`), shallowly
embedded in Lean.  Machine floats are modelled by `ℚ`, Python `None`/strings/
numbers occurring as filter values by the `PyVal` type, SQLite tables by lists
of rows, and wall-clock timestamps by rationals (in hours).
-/

/-- A Python value as it occurs in a filter dictionary: `None`, a string, or a
number (`float`).  JSON round-tripping through the search log preserves this
classification. -/
inductive PyVal where
  | vNone : PyVal
  | vStr : String → PyVal
  | vNum : ℚ → PyVal
deriving DecidableEq

/-- Python truthiness for `PyVal`: `None` is falsy, a string is truthy iff
nonempty, a number is truthy iff nonzero. -/
def truthy : PyVal → Bool
  | PyVal.vNone => false
  | PyVal.vStr s => s ≠ ""
  | PyVal.vNum q => q ≠ 0

/-- Whether `s` starts with the pattern `pat` (on character lists). -/
def startsWithChars : List Char → List Char → Bool
  | _, [] => true
  | [], _ :: _ => false
  | c :: cs, d :: ds => c = d && startsWithChars cs ds

/-- Python `s.startswith(pat)`. -/
def pyStartsWith (s pat : String) : Bool :=
  startsWithChars s.data pat.data

/-- Python whitespace, as stripped by `float(...)` on strings. -/
def isPySpace (c : Char) : Bool :=
  c = ' ' || c = '\t' || c = '\n' || c = '\r'

/-- Numeric value of a list of decimal digit characters, `none` if any
character is not a digit. -/
def digitsVal (cs : List Char) : Option ℕ :=
  cs.foldl
    (fun acc c =>
      acc.bind (fun n =>
        if ('0' ≤ c && c ≤ '9') then some (n * 10 + (c.toNat - 48)) else none))
    (some 0)

/-- Parse an (already stripped) character list as Python `float(...)` would:
an optional sign followed by decimal digits with at most one decimal point.
(The exotic forms `inf`, `nan` and exponent notation never occur in this
code base's filter values and are not modelled.) -/
def parseFloatCore (cs : List Char) : Option ℚ :=
  let (sign, rest) :=
    match cs with
    | '-' :: t => ((-1 : ℚ), t)
    | '+' :: t => ((1 : ℚ), t)
    | t => ((1 : ℚ), t)
  match rest.splitOn '.' with
  | [ip] =>
    if ip = [] then none
    else (digitsVal ip).map (fun n => sign * (n : ℚ))
  | [ip, fp] =>
    if ip = [] && fp = [] then none
    else
      match digitsVal ip, digitsVal fp with
      | some n, some f => some (sign * ((n : ℚ) + (f : ℚ) / (10 : ℚ) ^ fp.length))
      | _, _ => none
  | _ => none

/-- Python `float(s)` on a string: strip surrounding whitespace, then parse. -/
def parseFloat (s : String) : Option ℚ :=
  parseFloatCore (((s.data.dropWhile isPySpace).reverse.dropWhile isPySpace).reverse)

/-- Python `float(v)` on a filter value: numbers pass through, strings are
parsed, `None` raises `TypeError` (modelled as `none`). -/
def pyFloat : PyVal → Option ℚ
  | PyVal.vNone => none
  | PyVal.vStr s => parseFloat s
  | PyVal.vNum q => some q

/-- A filter dictionary: an association list of key/value pairs.  Python dict
keys are unique; theorems that need this carry a `Nodup` hypothesis. -/
abbrev Filters := List (String × PyVal)

/-- Python `d.get(key)`: the first value stored under `key`, or `None`. -/
def dictGet (f : Filters) (k : String) : PyVal :=
  (List.lookup k f).getD PyVal.vNone

/-- The entry-retention test `k != "sort" and v` of the dictionary
comprehensions in `scrape_logger.find_recent_compatible_search`
(lines 118 and 139). -/
def keepFilterEntry (kv : String × PyVal) : Bool :=
  kv.1 ≠ "sort" && truthy kv.2

/-- The dictionary comprehension `{k: v for k, v in filters.items() if k != "sort" and v}`
used in `scrape_logger.find_recent_compatible_search` (lines 118 and 139). -/
def stripSortFalsy (f : Filters) : Filters :=
  f.filter keepFilterEntry

/-- The numeric range keys singled out in `scrape_logger.is_subset_search`
(line 86). -/
def numericKeys : List String :=
  ["min_price", "max_price", "min_size", "max_size", "min_rooms", "max_rooms"]

/-- One iteration of the loop body of `scrape_logger.is_subset_search`
(lines 76-104): `true` means the iteration does not `return False`
(it either `continue`s or falls through). -/
def subsetCheckItem (existing : Filters) (k : String) (v : PyVal) : Bool :=
  if k = "sort" || !truthy v then true
  else
    let e := dictGet existing k
    if !truthy e then true
    else if numericKeys.contains k then
      match pyFloat v, pyFloat e with
      | some c, some q =>
        if pyStartsWith k "min_" then !(c < q)
        else if pyStartsWith k "max_" then !(q < c)
        else true
      | _, _ => true
    else decide (v = e)

/-- `scrape_logger.is_subset_search(current_filters, existing_filters)`
(lines 67-106). -/
def is_subset_search (current existing : Filters) : Bool :=
  if existing = [] then false
  else current.all (fun kv => subsetCheckItem existing kv.1 kv.2)

/-- One row of the `search_log` table, with `searched_at` modelled as a
rational timestamp in hours (ISO timestamps of a single run compare
identically). -/
structure SearchRec where
  filters : Filters
  searched_at : ℚ
deriving DecidableEq

/-- `scrape_logger.find_recent_compatible_search` (lines 109-146) over an
in-memory search log, given newest first (the SQL orders by
`searched_at DESC`); the `WHERE searched_at > cutoff` clause keeps records
with `searched_at > now - hours_limit`. -/
def find_recent_compatible_search (log : List SearchRec) (filters : Option Filters)
    (now hours_limit : ℚ) : Option Filters :=
  match filters with
  | none => none
  | some fs =>
    let search_filters := stripSortFalsy fs
    let recent := log.filter (fun r => decide (now - hours_limit < r.searched_at))
    recent.findSome? (fun r =>
      if is_subset_search search_filters (stripSortFalsy r.filters) then some r.filters
      else none)

/-- `scrape_logger.should_scrape` (lines 149-159); the final `if` is Python
truthiness of the returned dict. -/
def should_scrape (log : List SearchRec) (filters : Option Filters)
    (now hours_limit : ℚ) : Bool × Option Filters :=
  match find_recent_compatible_search log filters now hours_limit with
  | some cs => if cs = [] then (true, none) else (false, some cs)
  | none => (true, none)

/-- Modelled from the spec sentence (§8 / claim C2): the new filters' truthy
numeric bounds each parse and lie inside the corresponding truthy historical
bound (`min_*`: new ≥ historical, `max_*`: new ≤ historical), and every
categorical field truthy in both matches exactly; fields absent or falsy in
the historical record are satisfied.  This is the claim-side containment
predicate, to be compared with the source-side `is_subset_search`. -/
def claimItem (existing : Filters) (k : String) (v : PyVal) : Bool :=
  k = "sort" || !truthy v ||
    (let e := dictGet existing k
     !truthy e ||
       (if numericKeys.contains k then
          match pyFloat v, pyFloat e with
          | some c, some q =>
            (!pyStartsWith k "min_" || decide (q ≤ c)) &&
              (!pyStartsWith k "max_" || decide (c ≤ q))
          | _, _ => false
        else decide (v = e)))

/-- The containment condition of claim C2 over a whole filter dictionary. -/
def claimContainment (current existing : Filters) : Bool :=
  current.all (fun kv => claimItem existing kv.1 kv.2)

/-- The in-memory response cache of `scraper.py` (line 19): a dict mapping a
url to `(response_text, timestamp)`, with timestamps in hours. -/
abbrev Cache := List (String × String × ℚ)

/-- `scraper.CACHE_DURATION_HOURS` (line 21). -/
def CACHE_DURATION_HOURS : ℚ := 2

/-- `scraper.get_cached_response(url)` (lines 38-48), returning the cached
body (if fresh) together with the cache state after the call (an expired
entry is deleted). -/
def get_cached_response (cache : Cache) (now : ℚ) (url : String) :
    Option String × Cache :=
  match List.lookup url cache with
  | some (body, ts) =>
    if now - ts < CACHE_DURATION_HOURS then (some body, cache)
    else (none, cache.filter (fun e => e.1 ≠ url))
  | none => (none, cache)

/-- `scraper.clear_expired_cache()` (lines 55-64): delete every entry whose
timestamp is strictly before `now - CACHE_DURATION_HOURS`. -/
def clear_expired_cache (cache : Cache) (now : ℚ) : Cache :=
  cache.filter (fun e => !(e.2.2 < now - CACHE_DURATION_HOURS))

/-- `scraper.keys` (lines 167-177): the full column list of the `listings`
table; `url` is the first column. -/
def listingKeys : List String :=
  ["url", "location", "size", "rooms", "price_huf", "price_eur", "description",
   "Értékesités", "Jogi státusz", "Jelleg", "Építési mód", "Méret", "Bruttó méret",
   "Fűtés", "Belmagasság", "Tájolás", "Panoráma", "Lépcsőház típusa", "Állapot",
   "Homlokzat állapota", "Építés éve", "Fürdőszobák száma", "Lift", "szoba", "konyha",
   "közlekedő", "Lépcsőház állapota", "Környék", "Fekvés", "Víz", "Villany", "Csatorna",
   "nappali", "konyha-étkező", "fürdőszoba", "előszoba", "Közös költség", "Garázs",
   "hálószoba", "fürdőszoba-wc", "Terasz / erkély mérete", "Pince", "Gáz", "wc", "kamra",
   "erkély", "Lakáson belüli szintszám", "Tároló", "ebédlő", "Társaház kert", "terasz",
   "galéria", "lokáció", "Ár-Érték Index"]

/-- A row of the `listings` table: one TEXT-or-NULL cell per column of
`listingKeys`, in column order. -/
abbrev Row := List (Option String)

/-- A scraped listing record, as the dict handed to the batch writer. -/
abbrev Listing := List (String × Option String)

/-- `values = [listing_data.get(key, None) for key in keys]`
(`scraper.batch_upsert_listings`, line 202). -/
def toRow (l : Listing) : Row :=
  listingKeys.map (fun k => (List.lookup k l).getD none)

/-- The `url` cell of a row (`url` is the first column of `listingKeys`). -/
def rowUrl (r : Row) : Option String :=
  r.headD none

/-- SQLite `INSERT OR REPLACE` of one row: the REPLACE resolution first
deletes any row conflicting on a uniqueness constraint, then inserts.  A NULL
url never conflicts.  `urlUnique` records whether the `url` column carries a
`PRIMARY KEY`/`UNIQUE` constraint. -/
def insert_or_replace (urlUnique : Bool) (table : List Row) (r : Row) : List Row :=
  if urlUnique then
    (match rowUrl r with
     | some u => table.filter (fun r0 => rowUrl r0 ≠ some u)
     | none => table) ++ [r]
  else table ++ [r]

/-- `scraper.create_table` (lines 179-182) issues
`CREATE TABLE IF NOT EXISTS listings (<cols>)` where every column is declared
as plain `"name" TEXT` — no `PRIMARY KEY` and no `UNIQUE` constraint appears
anywhere, so the url column carries no uniqueness constraint. -/
def listings_url_unique : Bool := false

/-- `scraper.batch_upsert_listings(conn, all_listings)` (lines 191-211):
early return on an empty batch, otherwise
`INSERT OR REPLACE INTO listings ... executemany` over the batch, against the
schema produced by `create_table`. -/
def batch_upsert_listings (table : List Row) (batch : List Listing) : List Row :=
  if batch = [] then table
  else (batch.map toRow).foldl (insert_or_replace listings_url_unique) table

/-- `scraper.main` line 307:
`number_of_pages = int(int(total)/12)+1` — the reported result total divided
by the fixed page size 12, truncated, plus one. -/
def number_of_pages (total : ℕ) : ℕ :=
  total / 12 + 1

/-- A size interval of `MarketAnalyzer.SIZE_INTERVALS`: lower bound and upper
bound, `none` standing for `float('inf')`. -/
abbrev SizeIv := ℚ × Option ℚ

/-- `MarketAnalyzer.SIZE_INTERVALS` (`market_analysis.py` lines 13-24). -/
def SIZE_INTERVALS : List SizeIv :=
  [(0, some 30), (31, some 50), (51, some 70), (71, some 90), (91, some 120),
   (121, some 150), (151, some 200), (201, some 300), (301, some 500), (501, none)]

/-- `min_size <= size <= max_size` for one interval
(`MarketAnalyzer.get_size_interval`, line 35). -/
def inSizeIv (size : ℚ) (iv : SizeIv) : Bool :=
  decide (iv.1 ≤ size) &&
    (match iv.2 with
     | some mx => decide (size ≤ mx)
     | none => true)

/-- `MarketAnalyzer.get_size_interval(size)` (lines 29-37); `if not size`
makes a zero size fall through to `None`. -/
def get_size_interval (size : ℚ) : Option SizeIv :=
  if size = 0 then none
  else SIZE_INTERVALS.find? (inSizeIv size)

/-- Overlap test of `MarketAnalyzer.get_required_intervals_for_search`
(line 53): `not (interval_max < min_size or interval_min > max_size)`, where
an absent `max_size` stands for `float('inf')`. -/
def ivOverlaps (mn : ℚ) (max_size : Option ℚ) (iv : SizeIv) : Bool :=
  !((match iv.2 with
     | some mx => decide (mx < mn)
     | none => false) ||
    (match max_size with
     | some m => decide (m < iv.1)
     | none => false))

/-- `MarketAnalyzer.get_required_intervals_for_search(min_size, max_size)`
(lines 39-67).  Arguments are the parsed numeric bounds (`none` for a falsy
input); in the result, a `none` minimum is Python `None` and a `none` maximum
is Python `None` (the infinity case of line 64-65).  In the branch where no
interval overlaps, both inputs are necessarily present (the unbounded top
interval overlaps every search without a finite upper bound below 501). -/
def get_required_intervals_for_search (min_size max_size : Option ℚ) :
    Option ℚ × Option ℚ :=
  if min_size = none ∧ max_size = none then (none, none)
  else
    match SIZE_INTERVALS.filter (ivOverlaps (min_size.getD 0) max_size) with
    | [] => (some (min_size.getD 0), max_size)
    | r :: rs =>
      (some (rs.foldl (fun a iv => min a iv.1) r.1),
       if (r :: rs).any (fun iv => iv.2 = none) then none
       else some (rs.foldl (fun a iv => max a (iv.2.getD 0)) (r.2.getD 0)))

/-- A market-segment key `(lokáció, Jelleg, Állapot, size_interval)`
(`market_analysis.py` line 106/150). -/
structure SegKey where
  lokacio : String
  jelleg : String
  allapot : String
  iv : SizeIv
deriving DecidableEq

/-- The fields of a segment's statistics dict that
`get_property_market_insight` reads: `count`, `avg_price_per_sqm`,
`std_price_per_sqm` (`market_analysis.py` lines 125-133, 174-182). -/
structure SegStats where
  count : ℕ
  avg : ℚ
  std : ℚ
deriving DecidableEq

/-- The dict returned by `MarketAnalyzer.get_property_market_insight`
(lines 202-212). -/
structure MarketInsight where
  property_price_per_sqm : ℚ
  market_avg_price_per_sqm : ℚ
  price_diff_pct : ℚ
  price_diff_absolute : ℚ
  market_sample_count : ℕ
  comparison_type : String
  value_assessment : String
  market_std : ℚ
  size_interval : SizeIv
deriving DecidableEq

/-- `market_stats.get(segment_key)`: dictionary lookup by key equality. -/
def statsGet (stats : List (SegKey × SegStats)) (key : SegKey) : Option SegStats :=
  (stats.find? (fun e => e.1 = key)).map (fun e => e.2)

/-- `lokacio.split(',')[0]` (`market_analysis.py` line 168): the prefix of
the location string before its first comma. -/
def districtToken (s : String) : List Char :=
  s.data.takeWhile (fun c => !(c = ','))

/-- Fallback level (a) of `get_property_market_insight` (line 164): same
location and type, any condition, same size interval. -/
def condSameLocationType (lok jel : String) (iv : SizeIv) (k : SegKey) : Bool :=
  decide (lok = k.lokacio) && decide (jel = k.jelleg) && decide (iv = k.iv)

/-- Fallback level (b) of `get_property_market_insight` (lines 167-168): same
type and condition, same interval, same top-level district token. -/
def condSameDistrictType (lok jel alp : String) (iv : SizeIv) (k : SegKey) : Bool :=
  decide (jel = k.jelleg) && decide (alp = k.allapot) && decide (iv = k.iv) &&
    decide (districtToken lok = districtToken k.lokacio)

/-- One iteration of the fallback-collection loop (lines 160-169): the label
and data appended to `fallback_matches` for the stats entry `e`, if any. -/
def fallbackMatch (lok jel alp : String) (iv : SizeIv) (e : SegKey × SegStats) :
    Option (String × SegStats) :=
  if condSameLocationType lok jel iv e.1 then some ("same_location_type", e.2)
  else if condSameDistrictType lok jel alp iv e.1 then some ("same_district_type", e.2)
  else none

/-- The comparison data `get_property_market_insight` settles on
(lines 154-184): the exact segment if present, otherwise
`fallback_matches[0]` — the first entry of the stats mapping, in iteration
order, matching either fallback condition. -/
def choiceData (stats : List (SegKey × SegStats)) (lok jel alp : String)
    (iv : SizeIv) : Option (String × SegStats) :=
  match statsGet stats ⟨lok, jel, alp, iv⟩ with
  | some d => some ("exact", d)
  | none => (stats.filterMap (fallbackMatch lok jel alp iv)).head?

/-- The value-assessment thresholds (lines 190-200). -/
def valueAssessment (pct : ℚ) : String :=
  if pct ≤ -15 then "Kiváló ár-érték arány"
  else if pct ≤ -5 then "Jó ár-érték arány"
  else if pct ≤ 5 then "Piaci átlag"
  else if pct ≤ 15 then "Piaci átlag felett"
  else "Drága"

/-- The insight dict built from the chosen comparison data (lines 186-212). -/
def mkInsight (m p : ℚ) (iv : SizeIv) (ctype : String) (d : SegStats) :
    MarketInsight :=
  { property_price_per_sqm := p / m
    market_avg_price_per_sqm := d.avg
    price_diff_pct := (p / m - d.avg) / d.avg * 100
    price_diff_absolute := p / m - d.avg
    market_sample_count := d.count
    comparison_type := ctype
    value_assessment := valueAssessment ((p / m - d.avg) / d.avg * 100)
    market_std := d.std
    size_interval := iv }

/-- `MarketAnalyzer.get_property_market_insight(lokacio, jelleg, allapot,
meret, price)` (lines 137-212), parameterised by the segment statistics
mapping that `calculate_market_stats` would compute from the database
(in its dict iteration order).  String arguments model Python `None` as
`""` (both falsy under `not all([...])`). -/
def get_property_market_insight (stats : List (SegKey × SegStats))
    (lok jel alp : String) (meret price : Option ℚ) : Option MarketInsight :=
  match meret, price with
  | some m, some p =>
    if lok = "" ∨ jel = "" ∨ alp = "" ∨ m = 0 ∨ p = 0 ∨ m ≤ 0 ∨ p ≤ 0 then none
    else
      match get_size_interval m with
      | none => none
      | some iv =>
        match choiceData stats lok jel alp iv with
        | none => none
        | some (ctype, d) => some (mkInsight m p iv ctype d)
  | _, _ => none

/-- The market component of the enhanced score
(`calculate_enhanced_worth_it_score`, lines 229-241), as a function of
`price_diff_pct`. -/
def market_score (d : ℚ) : ℚ :=
  if d ≤ -20 then 50
  else if d ≤ -10 then 40 + ((-10 - d) / 10) * 10
  else if d ≤ 0 then 30 + ((0 - d) / 10) * 10
  else if d ≤ 10 then 20 - (d / 10) * 10
  else if d ≤ 20 then 10 - ((d - 10) / 10) * 10
  else 0

/-- Python round-half-to-even of a rational to an integer. -/
def roundHalfEven (x : ℚ) : ℤ :=
  if x - ⌊x⌋ < 1 / 2 then ⌊x⌋
  else if 1 / 2 < x - ⌊x⌋ then ⌊x⌋ + 1
  else if 2 ∣ ⌊x⌋ then ⌊x⌋ else ⌊x⌋ + 1

/-- Python `round(x, n)` (banker's rounding at `n` decimal digits). -/
def pyround (x : ℚ) (n : ℕ) : ℚ :=
  (roundHalfEven (x * 10 ^ n) : ℚ) / 10 ^ n

/-- The fallback branch of `calculate_enhanced_worth_it_score`
(lines 221-226): `round((rooms * 1000) / (price / meret), 2)`, `None` on
`ZeroDivisionError` (zero `meret`, or zero `price / meret`) or `TypeError`
(a `None` operand). -/
def fallback_score (price meret rooms : Option ℚ) : Option ℚ :=
  match rooms, price, meret with
  | some r, some p, some m =>
    if m = 0 then none
    else if p / m = 0 then none
    else some (pyround ((r * 1000) / (p / m)) 2)
  | _, _, _ => none

/-- Substring occurrence on character lists. -/
def pyContainsChars : List Char → List Char → Bool
  | [], pat => startsWithChars [] pat
  | c :: t, pat => startsWithChars (c :: t) pat || pyContainsChars t pat

/-- Python `'pat' in s` substring test. -/
def pyContains (s pat : String) : Bool :=
  pyContainsChars s.data pat.data

/-- Python `s.lower()` (ASCII case folding; the property-type labels
`lakás`/`ház` are already lower case). -/
def pyLower (s : String) : String :=
  ⟨s.data.map Char.toLower⟩

/-- The house room-density scale (lines 252-263). -/
def house_room_score (density : ℚ) : ℚ :=
  if 2.5 ≤ density then 25
  else if 2.0 ≤ density then 22
  else if 1.5 ≤ density then 18
  else if 1.2 ≤ density then 15
  else if 1.0 ≤ density then 12
  else 8

/-- The apartment room-density scale (lines 271-281). -/
def apartment_room_score (density : ℚ) : ℚ :=
  if 4 ≤ density then 25
  else if 3 ≤ density then 20
  else if 2.5 ≤ density then 15
  else if 2 ≤ density then 10
  else 5

/-- The market-confidence component (lines 286-296). -/
def confidence_score (sample_count : ℕ) : ℚ :=
  if 10 ≤ sample_count then 15
  else if 5 ≤ sample_count then 12
  else if 3 ≤ sample_count then 8
  else if 2 ≤ sample_count then 5
  else 2

/-- The condition component: `condition_scores.get(allapot, 5)`
(lines 299-306). -/
def condition_component (allapot : String) : ℚ :=
  if allapot = "Kiváló" then 10
  else if allapot = "Jó" then 8
  else if allapot = "Átlagos" then 5
  else if allapot = "Felújítandó" then 2
  else if allapot = "Rossz" then 0
  else 5

/-- The insight branch of `calculate_enhanced_worth_it_score`
(lines 228-316) for a listing with size `m` (present and positive whenever an
insight exists). -/
def main_score (jel alp : String) (m : ℚ) (rooms : Option ℚ)
    (ins : MarketInsight) : ℚ :=
  let is_house := pyContains (pyLower jel) "ház"
  let is_apartment := pyContains (pyLower jel) "lakás"
  let room_score : ℚ :=
    match rooms with
    | some r =>
      if r = 0 ∨ m = 0 then 10
      else if is_house then
        house_room_score (r / m * 100) + (if 300 ≤ m then 3 else 0)
      else apartment_room_score (r / m * 100)
    | none => 10
  let size_bonus : ℚ :=
    if is_house && decide (400 < m) then 3
    else if is_apartment && decide (150 < m) then 2
    else 0
  pyround
    (min
      (market_score ins.price_diff_pct + room_score +
        confidence_score ins.market_sample_count + condition_component alp +
        size_bonus)
      100)
    1

/-- `MarketAnalyzer.calculate_enhanced_worth_it_score(lokacio, jelleg,
allapot, meret, price, rooms)` (lines 214-316), parameterised by the segment
statistics mapping.  When `meret` or `price` is `None` the insight is absent
and the fallback raises `TypeError`, as in the source. -/
def calculate_enhanced_worth_it_score (stats : List (SegKey × SegStats))
    (lok jel alp : String) (meret price rooms : Option ℚ) : Option ℚ :=
  match get_property_market_insight stats lok jel alp meret price with
  | none => fallback_score price meret rooms
  | some ins =>
    match meret with
    | some m => some (main_score jel alp m rooms ins)
    | none => none

/-- Injection of a parsed numeric bound back into a Python value: the floats
`expanded_min`/`expanded_max` that `app.py` passes to `scraper.main`, or
`None`. -/
def optQ : Option ℚ → PyVal
  | some q => PyVal.vNum q
  | none => PyVal.vNone

/-- The filter dict that the crawl appends to the search log for a search
that required scraping: `app.results` (`app.py` lines 168-191) passes the
size bounds through `get_required_intervals_for_search` when either is
present, hands them to `scraper.main`, and `scraper.main` logs its own
arguments (`scraper.py` line 414).  Size bounds are modelled by their parsed
numeric values (`none` for an absent/falsy form field); the remaining fields
are passed through verbatim. -/
def results_logged_filters (ptype location min_price max_price min_rooms
    max_rooms : PyVal) (min_size max_size : Option ℚ) : Filters :=
  let sz :=
    if min_size.isSome || max_size.isSome then
      get_required_intervals_for_search min_size max_size
    else (min_size, max_size)
  [("jelleg", ptype), ("ar_min", min_price), ("ar_max", max_price),
   ("elhelyezkedes", location), ("meret_min", optQ sz.1),
   ("meret_max", optQ sz.2), ("szoba_min", min_rooms), ("szoba_max", max_rooms)]

theorem lookup_eq_none_of_not_mem_keys {α β : Type} [BEq α] [LawfulBEq α]
    (k : α) (l : List (α × β)) (h : k ∉ l.map Prod.fst) :
    List.lookup k l = none := by
  induction l with
  | nil => rfl
  | cons a t ih =>
    simp only [List.map_cons, List.mem_cons, not_or] at h
    obtain ⟨h1, h2⟩ := h
    simpa [List.lookup, beq_eq_false_iff_ne.mpr h1] using ih h2

theorem lookup_filter {α β : Type} [BEq α] [LawfulBEq α]
    (l : List (α × β)) (p : α × β → Bool) (k : α)
    (h : (l.map Prod.fst).Nodup) :
    List.lookup k (l.filter p) =
      (List.lookup k l).bind (fun v => if p (k, v) then some v else none) := by
  induction l with
  | nil => rfl
  | cons a t ih =>
    obtain ⟨a1, a2⟩ := a
    simp only [List.map_cons, List.nodup_cons] at h
    obtain ⟨ha, ht⟩ := h
    have ih2 := ih ht
    by_cases hk : k = a1
    · subst hk
      have hnf : List.lookup k (t.filter p) = none := by
        refine lookup_eq_none_of_not_mem_keys _ _ (fun hc => ha ?_)
        simp only [List.mem_map] at hc ⊢
        obtain ⟨x, hx, hfst⟩ := hc
        exact ⟨x, List.mem_of_mem_filter hx, hfst⟩
      cases hp : p (k, a2) <;>
        simp [List.filter_cons, hp, List.lookup, hnf]
    · have hbk : (k == a1) = false := beq_eq_false_iff_ne.mpr hk
      cases hp : p (a1, a2) <;>
        simp [List.filter_cons, hp, List.lookup, hbk, ih2]

theorem head?_filterMap {α β : Type} (f : α → Option β) (l : List α) :
    (l.filterMap f).head? = (l.find? (fun x => (f x).isSome)).bind f := by
  induction l with
  | nil => rfl
  | cons a t ih =>
    cases hf : f a <;> simp [List.filterMap_cons, List.find?_cons, hf, ih]

/-- C1: `create_table` declares no uniqueness constraint on `url`, so the
`INSERT OR REPLACE` in `batch_upsert_listings` never meets a conflict and
plainly inserts: upserting the same one-listing batch twice leaves the table
with two rows carrying that url — the second application is not a no-op and
the one-row-per-URL invariant fails. -/
theorem c1_upsert_duplicates_rows :
    batch_upsert_listings
        (batch_upsert_listings [] [[("url", some "https://www.oc.hu/x")]])
        [[("url", some "https://www.oc.hu/x")]] ≠
      batch_upsert_listings [] [[("url", some "https://www.oc.hu/x")]] ∧
    ((batch_upsert_listings
        (batch_upsert_listings [] [[("url", some "https://www.oc.hu/x")]])
        [[("url", some "https://www.oc.hu/x")]]).filter
          (fun r => rowUrl r = some "https://www.oc.hu/x")).length = 2 := by
  decide

/-- C9 counterexample: at a reported total of 12 results the orchestrator
fetches `int(12/12)+1 = 2` pages, while `ceil(12/12) = 1`. -/
theorem c9_counterexample :
    number_of_pages 12 = 2 ∧ number_of_pages 12 ≠ (12 + 11) / 12 := by
  decide

/-- C9 amended: for every total `n ≥ 1` the page count is
`floor(n/12) + 1`, i.e. `ceil(n/12)` plus one extra page exactly when 12
divides `n`. -/
theorem c9_pages_floor_plus_one (n : ℕ) (h : 1 ≤ n) :
    number_of_pages n = (n + 11) / 12 + (if 12 ∣ n then 1 else 0) := by
  unfold number_of_pages
  split_ifs with hd
  · obtain ⟨k, rfl⟩ := hd
    omega
  · omega

/-- Witness for `c9_pages_floor_plus_one` at `n = 13`. -/
theorem c9_pages_witness :
    number_of_pages 13 = (13 + 11) / 12 + (if 12 ∣ 13 then 1 else 0) :=
  c9_pages_floor_plus_one 13 (by decide)

/-- C3 counterexample: the requested range (50, 70) does not expand to
(51, 70) — the code returns (31, 70), because the point 50 also lies in the
interval (31, 50). -/
theorem c3_counterexample :
    get_required_intervals_for_search (some 50) (some 70) = (some 31, some 70) ∧
      get_required_intervals_for_search (some 50) (some 70) ≠ (some 51, some 70) := by
  decide

/-- C3 amended: the expansion of (50, 70) is the union of the size intervals
the range overlaps, which are (31, 50) and (51, 70) — the requested minimum
50 itself lies inside (31, 50) — so the expanded crawl range is (31, 70). -/
theorem c3_expansion_is_overlapped_union :
    SIZE_INTERVALS.filter (ivOverlaps 50 (some 70)) =
        [(31, some 50), (51, some 70)] ∧
      inSizeIv 50 (31, some 50) = true ∧
      get_required_intervals_for_search (some 50) (some 70) = (some 31, some 70) := by
  decide

/-- C4 counterexample: the market component at deviation +10 is 10, not the
claimed 20. -/
theorem c4_counterexample : market_score 10 = 10 ∧ market_score 10 ≠ 20 := by
  norm_num [market_score]

/-- C4 amended: the market component is 50 for deviation ≤ −20, the line
`30 − d` on (−20, 0] (40 at −10, 30 at 0), the line `20 − d` on (0, 20]
(so 10 at +10 and 0 at +20, with a downward jump from 30 to 20 at 0), and 0
beyond +20. -/
theorem c4_market_component_piecewise (d : ℚ) :
    (d ≤ -20 → market_score d = 50) ∧
      (-20 < d → d ≤ 0 → market_score d = 30 - d) ∧
      (0 < d → d ≤ 20 → market_score d = 20 - d) ∧
      (20 < d → market_score d = 0) := by
  unfold market_score
  refine ⟨fun h => ?_, fun h1 h2 => ?_, fun h1 h2 => ?_, fun h => ?_⟩ <;>
    split_ifs <;> linarith

/-- Witness for `c4_market_component_piecewise` at deviation +15. -/
theorem c4_market_component_witness : market_score 15 = 20 - 15 :=
  (c4_market_component_piecewise 15).2.2.1 (by norm_num) (by norm_num)

/-- C7: the response cache never serves stale data.  (1) Whenever
`get_cached_response` returns a body, the entry's age `now − ts` is below the
2-hour TTL.  (2) A looked-up entry at or beyond the TTL is not returned and
is purged from the cache.  (3) Immediately after `clear_expired_cache`, every
remaining entry has age at most the TTL. -/
theorem c7_cache_never_serves_stale (cache : Cache) (now : ℚ) (url : String) :
    (∀ body c2, get_cached_response cache now url = (some body, c2) →
        ∃ ts, List.lookup url cache = some (body, ts) ∧
          now - ts < CACHE_DURATION_HOURS) ∧
      (∀ body ts, List.lookup url cache = some (body, ts) →
          CACHE_DURATION_HOURS ≤ now - ts →
          get_cached_response cache now url =
              (none, cache.filter (fun e => e.1 ≠ url)) ∧
            List.lookup url (cache.filter (fun e => e.1 ≠ url)) = none) ∧
      (∀ u b ts, (u, b, ts) ∈ clear_expired_cache cache now →
          now - ts ≤ CACHE_DURATION_HOURS) := by
  refine ⟨?_, ?_, ?_⟩
  · intro body c2 h
    cases hl : List.lookup url cache with
    | none => simp [get_cached_response, hl] at h
    | some bt =>
      obtain ⟨b0, ts0⟩ := bt
      simp only [get_cached_response, hl] at h
      by_cases hfresh : now - ts0 < CACHE_DURATION_HOURS
      · rw [if_pos hfresh, Prod.mk.injEq] at h
        obtain ⟨hb, -⟩ := h
        obtain rfl : b0 = body := Option.some.inj hb
        exact ⟨ts0, rfl, hfresh⟩
      · rw [if_neg hfresh, Prod.mk.injEq] at h
        simp at h
  · intro body ts hl hle
    have hnl : ¬ now - ts < CACHE_DURATION_HOURS := not_lt.mpr hle
    refine ⟨by simp only [get_cached_response, hl, if_neg hnl], ?_⟩
    refine lookup_eq_none_of_not_mem_keys _ _ ?_
    intro hc
    simp only [List.mem_map, List.mem_filter] at hc
    obtain ⟨x, ⟨-, hx⟩, hfst⟩ := hc
    simp [hfst] at hx
  · intro u b ts hm
    unfold clear_expired_cache at hm
    rw [List.mem_filter] at hm
    have h2 := hm.2
    simp only [Bool.not_eq_true', decide_eq_false_iff_not, not_lt] at h2
    linarith

/-- Witness for `c7_cache_never_serves_stale` on concrete one-entry caches. -/
theorem c7_cache_witness :
    (∃ ts, List.lookup "u" [("u", "b", (1:ℚ))] = some ("b", ts) ∧
        (2:ℚ) - ts < CACHE_DURATION_HOURS) ∧
      (get_cached_response [("u", "b", (0:ℚ))] 3 "u" =
          (none, List.filter (fun e => e.1 ≠ "u") [("u", "b", (0:ℚ))]) ∧
        List.lookup "u" (List.filter (fun e => e.1 ≠ "u") [("u", "b", (0:ℚ))]) =
          none) ∧
      (3:ℚ) - 2 ≤ CACHE_DURATION_HOURS := by
  refine ⟨(c7_cache_never_serves_stale [("u", "b", 1)] 2 "u").1 "b" [("u", "b", 1)] ?_,
    (c7_cache_never_serves_stale [("u", "b", 0)] 3 "u").2.1 "b" 0 ?_ ?_,
    (c7_cache_never_serves_stale [("u", "b", 2)] 3 "u").2.2 "u" "b" 2 ?_⟩
  · norm_num [get_cached_response, CACHE_DURATION_HOURS, List.lookup]
  · simp [List.lookup]
  · norm_num [CACHE_DURATION_HOURS]
  · norm_num [clear_expired_cache, CACHE_DURATION_HOURS, List.mem_filter]

theorem subsetCheckItem_of_claimItem (existing : Filters) (k : String) (v : PyVal)
    (hnd : (existing.map Prod.fst).Nodup)
    (h : claimItem existing k v = true) :
    subsetCheckItem (stripSortFalsy existing) k v = true := by
  unfold claimItem at h
  unfold subsetCheckItem
  by_cases hks : k = "sort"
  · simp [hks]
  by_cases htv : truthy v = true
  swap
  · have htv0 : truthy v = false := by simpa using htv
    simp [htv0]
  have hks' : decide (k = "sort") = false := decide_eq_false hks
  simp only [hks', htv, Bool.not_true, Bool.or_false, Bool.false_or] at h ⊢
  have hlf := lookup_filter existing keepFilterEntry k hnd
  cases hl : List.lookup k existing with
  | none =>
    rw [hl] at hlf
    simp only [Option.none_bind] at hlf
    simp [stripSortFalsy, dictGet, hlf, truthy]
  | some w =>
    rw [hl] at hlf
    simp only [Option.some_bind] at hlf
    by_cases htw : truthy w = true
    swap
    · have htw0 : truthy w = false := by simpa using htw
      have hlw : List.lookup k (stripSortFalsy existing) = none := by
        rw [stripSortFalsy, hlf]
        simp [keepFilterEntry, htw0]
      simp [dictGet, hlw, truthy]
    · have hlw : List.lookup k (stripSortFalsy existing) = some w := by
        rw [stripSortFalsy, hlf]
        simp [keepFilterEntry, hks, htw]
      simp only [dictGet, hl, hlw, Option.getD_some, htw, Bool.not_true,
        Bool.false_or] at h ⊢
      have hfalse : ¬ ((false : Bool) = true) := by simp
      rw [if_neg hfalse]
      by_cases hnum : numericKeys.contains k = true
      · rw [if_pos hnum] at h ⊢
        generalize hpv : pyFloat v = pv at h ⊢
        cases pv with
        | none => generalize hpw : pyFloat w = pw at h ⊢; cases pw <;> simp at h
        | some c =>
          generalize hpw : pyFloat w = pw at h ⊢
          cases pw with
          | none => simp at h
          | some q =>
            rw [Bool.and_eq_true] at h
            obtain ⟨hmin, hmax⟩ := h
            show (if pyStartsWith k "min_" = true then !decide (c < q)
              else if pyStartsWith k "max_" = true then !decide (q < c)
              else true) = true
            by_cases hm : pyStartsWith k "min_" = true
            · rw [if_pos hm]
              rw [hm] at hmin
              simp only [Bool.not_true, Bool.false_or, decide_eq_true_eq] at hmin
              simp [not_lt.mpr hmin]
            · rw [if_neg hm]
              by_cases hx : pyStartsWith k "max_" = true
              · rw [if_pos hx]
                rw [hx] at hmax
                simp only [Bool.not_true, Bool.false_or, decide_eq_true_eq] at hmax
                simp [not_lt.mpr hmax]
              · rw [if_neg hx]
      · rw [if_neg hnum] at h ⊢
        exact h

/-- C2 counterexample: a 24-hour-window historical record whose every field
is falsy satisfies the claim's containment hypotheses (vacuously, fields
absent in the historical record being treated as satisfied, and
`claimContainment` holding), yet `should_scrape` reports that a crawl IS
needed instead of returning the historical filters. -/
theorem c2_counterexample :
    claimContainment [("jelleg", PyVal.vNone)] [("jelleg", PyVal.vNone)] = true ∧
      should_scrape [⟨[("jelleg", PyVal.vNone)], 0⟩]
          (some [("jelleg", PyVal.vNone)]) 1 24 = (true, none) ∧
      should_scrape [⟨[("jelleg", PyVal.vNone)], 0⟩]
          (some [("jelleg", PyVal.vNone)]) 1 24 ≠
        (false, some [("jelleg", PyVal.vNone)]) := by
  refine ⟨by decide, ?_, ?_⟩ <;>
    norm_num +decide [should_scrape, find_recent_compatible_search,
      List.findSome?, List.filter, stripSortFalsy, keepFilterEntry,
      is_subset_search, truthy]

/-- C2 amended: if every truthy numeric bound of the new filters parses and
lies inside the corresponding truthy historical bound, every categorical
field truthy in both matches exactly (fields absent or falsy in the
historical record counting as satisfied), and the historical record — inside
the 24-hour window — retains at least one truthy non-sort field, then
`should_scrape` reports no crawl and returns the historical filters. -/
theorem c2_contained_search_needs_no_crawl
    (current existing : Filters) (t now : ℚ)
    (hnd : (existing.map Prod.fst).Nodup)
    (hwin : now - 24 < t)
    (hne : stripSortFalsy existing ≠ [])
    (hc : claimContainment current existing = true) :
    should_scrape [⟨existing, t⟩] (some current) now 24 = (false, some existing) := by
  have hsub : is_subset_search (stripSortFalsy current) (stripSortFalsy existing) = true := by
    unfold is_subset_search
    rw [if_neg hne, List.all_eq_true]
    intro kv hkv
    have hm : kv ∈ current := (List.mem_filter.mp hkv).1
    exact subsetCheckItem_of_claimItem existing kv.1 kv.2 hnd
      (List.all_eq_true.mp hc kv hm)
  have hexne : existing ≠ [] := by
    intro hx
    exact hne (by rw [hx]; rfl)
  have hdec : decide (now - 24 < t) = true := decide_eq_true hwin
  simp [should_scrape, find_recent_compatible_search, List.findSome?, hdec,
    hsub, hexne]

/-- Witness for `c2_contained_search_needs_no_crawl` on a concrete narrowed
search against a concrete broader historical record. -/
theorem c2_contained_search_witness :
    should_scrape
        [⟨[("type", PyVal.vStr "lakás"), ("min_price", PyVal.vNum 20),
           ("max_price", PyVal.vNum 60), ("min_size", PyVal.vNone)], 0⟩]
        (some [("type", PyVal.vStr "lakás"), ("min_price", PyVal.vNum 30),
               ("max_price", PyVal.vNum 50), ("sort", PyVal.vStr "price_asc")])
        12 24 =
      (false, some [("type", PyVal.vStr "lakás"), ("min_price", PyVal.vNum 20),
                    ("max_price", PyVal.vNum 60), ("min_size", PyVal.vNone)]) :=
  c2_contained_search_needs_no_crawl _ _ 0 12 (by decide) (by norm_num)
    (by decide) (by decide)

/-- C10: in `is_subset_search`, a numeric bound whose current or historical
value fails to parse as a float is skipped (treated as satisfied); a falsy
value in the new filters is likewise ignored; consequently containment is
reported even when an unparseable (`"abc"`) or empty new bound is in fact
wider than the historical bound. -/
theorem c10_numeric_parse_fails_open :
    (∀ (existing : Filters) (k : String) (v : PyVal),
        k ∈ numericKeys →
        pyFloat v = none ∨ pyFloat (dictGet existing k) = none →
        subsetCheckItem existing k v = true) ∧
      (∀ (existing : Filters) (k : String) (v : PyVal),
          truthy v = false → subsetCheckItem existing k v = true) ∧
      is_subset_search [("min_price", PyVal.vStr "abc")]
          [("min_price", PyVal.vNum 100)] = true ∧
      is_subset_search [("min_price", PyVal.vNone), ("max_price", PyVal.vNum 50)]
          [("min_price", PyVal.vNum 100), ("max_price", PyVal.vNum 60)] = true := by
  refine ⟨?_, ?_, by decide, by decide⟩
  · intro existing k v hk hp
    have hcm : numericKeys.contains k = true := List.elem_iff.mpr hk
    unfold subsetCheckItem
    by_cases h1 : (decide (k = "sort") || !truthy v) = true
    · rw [if_pos h1]
    · rw [if_neg h1]
      show (if (!truthy (dictGet existing k)) = true then true
        else if numericKeys.contains k = true then
          match pyFloat v, pyFloat (dictGet existing k) with
          | some c, some q =>
            if pyStartsWith k "min_" = true then !decide (c < q)
            else if pyStartsWith k "max_" = true then !decide (q < c)
            else true
          | _, _ => true
        else decide (v = dictGet existing k)) = true
      by_cases h2 : (!truthy (dictGet existing k)) = true
      · rw [if_pos h2]
      · rw [if_neg h2, if_pos hcm]
        rcases hp with hp | hp
        · rw [hp]
        · rw [hp]
          cases pyFloat v <;> rfl
  · intro existing k v hv
    simp [subsetCheckItem, hv]

/-- Witness for `c10_numeric_parse_fails_open` at an unparseable and at an
empty new bound. -/
theorem c10_fail_open_witness :
    subsetCheckItem [("min_price", PyVal.vNum 100)] "min_price"
        (PyVal.vStr "abc") = true ∧
      subsetCheckItem [("max_price", PyVal.vNum 50)] "max_price"
        PyVal.vNone = true :=
  ⟨c10_numeric_parse_fails_open.1 _ _ _ (by decide) (Or.inl (by decide)),
    c10_numeric_parse_fails_open.2.1 _ _ _ (by decide)⟩

theorem roundHalfEven_intCast (z : ℤ) : roundHalfEven (z : ℚ) = z := by
  unfold roundHalfEven
  rw [Int.floor_intCast, sub_self]
  norm_num

theorem pyround_intCast (z : ℤ) (n : ℕ) : pyround (z : ℚ) n = z := by
  unfold pyround
  have h : (z : ℚ) * 10 ^ n = ((z * 10 ^ n : ℤ) : ℚ) := by push_cast; ring
  rw [h, roundHalfEven_intCast]
  push_cast
  rw [mul_div_assoc, div_self (by positivity), mul_one]

/-- C5: the no-insight fallback `round(rooms*1000 / (price/size), 2)` is not
clamped to [0, 100]: with no market data, size 100, price 1000 and 2 rooms
the returned score is 200, contradicting the score's own 0–100 contract. -/
theorem c5_fallback_score_exceeds_100 :
    calculate_enhanced_worth_it_score [] "Budapest VIII. kerület" "lakás" "Jó"
        (some 100) (some 1000) (some 2) = some 200 ∧ ¬ ((200 : ℚ) ≤ 100) := by
  refine ⟨?_, by norm_num⟩
  have hins : get_property_market_insight [] "Budapest VIII. kerület" "lakás"
      "Jó" (some 100) (some 1000) = none := by
    norm_num [get_property_market_insight, choiceData, statsGet,
      get_size_interval, SIZE_INTERVALS, inSizeIv]
  have harg : ((2 : ℚ) * 1000) / ((1000 : ℚ) / 100) = ((200 : ℤ) : ℚ) := by
    norm_num
  simp only [calculate_enhanced_worth_it_score, hins, fallback_score]
  norm_num [harg]
  simpa using pyround_intCast 200 2

/-- C8 counterexample: with no exact segment, a level-(b) match (same
type+condition, same district token) that appears earlier in the stats
mapping than a level-(a) match (same location+type) is the one chosen: the
insight reports `same_district_type` with the (b) segment's average, not the
level-(a) segment. -/
theorem c8_counterexample :
    (get_property_market_insight
        [(⟨"X, Z", "lakás", "Jó", (51, some 70)⟩, ⟨3, 10, 0⟩),
         (⟨"X, Y", "lakás", "Kiváló", (51, some 70)⟩, ⟨4, 20, 0⟩)]
        "X, Y" "lakás" "Jó" (some 60) (some 600)).map
        (fun i => (i.comparison_type, i.market_avg_price_per_sqm)) =
      some ("same_district_type", 10) ∧
      (("same_district_type", (10 : ℚ)) ≠ ("same_location_type", (20 : ℚ))) := by
  refine ⟨?_, by simp⟩
  norm_num +decide [get_property_market_insight, choiceData, statsGet,
    get_size_interval, SIZE_INTERVALS, inSizeIv, fallbackMatch,
    condSameLocationType, condSameDistrictType, districtToken, mkInsight,
    List.find?, List.filterMap]

/-- C8 amended: when the exact segment is absent, the chosen fallback is the
first entry of the stats mapping, in iteration order, that matches either
fallback condition — labelled `same_location_type` if that entry matches
level (a) and `same_district_type` otherwise; level (a) is not preferred
over level (b) across entries. -/
theorem c8_first_fallback_in_iteration_order
    (stats : List (SegKey × SegStats)) (lok jel alp : String) (m p : ℚ)
    (iv : SizeIv) (e : SegKey × SegStats)
    (hlok : lok ≠ "") (hjel : jel ≠ "") (halp : alp ≠ "")
    (hm : 0 < m) (hp : 0 < p)
    (hiv : get_size_interval m = some iv)
    (hexact : statsGet stats ⟨lok, jel, alp, iv⟩ = none)
    (hfind : stats.find? (fun e0 => (fallbackMatch lok jel alp iv e0).isSome) =
      some e) :
    (get_property_market_insight stats lok jel alp (some m) (some p)).map
        (fun i => (i.comparison_type, i.market_avg_price_per_sqm,
          i.market_sample_count, i.market_std)) =
      some
        ((if condSameLocationType lok jel iv e.1 then "same_location_type"
          else "same_district_type"),
         e.2.avg, e.2.count, e.2.std) := by
  have hguard : ¬ (lok = "" ∨ jel = "" ∨ alp = "" ∨ m = 0 ∨ p = 0 ∨
      m ≤ 0 ∨ p ≤ 0) := by
    push_neg
    exact ⟨hlok, hjel, halp, ne_of_gt hm, ne_of_gt hp, hm, hp⟩
  have hmatch := List.find?_some hfind
  have hcd : choiceData stats lok jel alp iv =
      some ((if condSameLocationType lok jel iv e.1 then "same_location_type"
        else "same_district_type"), e.2) := by
    unfold choiceData
    rw [hexact, head?_filterMap, hfind]
    simp only [Option.some_bind]
    unfold fallbackMatch at hmatch ⊢
    by_cases hA : condSameLocationType lok jel iv e.1 = true
    · rw [if_pos hA, if_pos hA]
    · rw [if_neg hA] at hmatch ⊢
      by_cases hB : condSameDistrictType lok jel alp iv e.1 = true
      · rw [if_pos hB]
        simp [hA]
      · rw [if_neg hB] at hmatch
        simp at hmatch
  simp only [get_property_market_insight, hiv]
  rw [if_neg hguard, hcd]
  simp [mkInsight]

/-- Witness for `c8_first_fallback_in_iteration_order`: with the level-(a)
entry first in the mapping, the level-(a) segment is chosen. -/
theorem c8_order_witness :
    (get_property_market_insight
        [(⟨"X, Y", "lakás", "Kiváló", (51, some 70)⟩, ⟨4, 20, 0⟩),
         (⟨"X, Z", "lakás", "Jó", (51, some 70)⟩, ⟨3, 10, 0⟩)]
        "X, Y" "lakás" "Jó" (some 60) (some 600)).map
        (fun i => (i.comparison_type, i.market_avg_price_per_sqm,
          i.market_sample_count, i.market_std)) =
      some ("same_location_type", 20, 4, 0) := by
  have h := c8_first_fallback_in_iteration_order
    [(⟨"X, Y", "lakás", "Kiváló", (51, some 70)⟩, ⟨4, 20, 0⟩),
     (⟨"X, Z", "lakás", "Jó", (51, some 70)⟩, ⟨3, 10, 0⟩)]
    "X, Y" "lakás" "Jó" 60 600 (51, some 70)
    (⟨"X, Y", "lakás", "Kiváló", (51, some 70)⟩, ⟨4, 20, 0⟩)
    (by decide) (by decide) (by decide) (by norm_num) (by norm_num)
    (by decide) (by decide) (by decide)
  exact h.trans (by decide)

/-- C6 counterexample: for the user search 50–70㎡ the SearchRecord logged
after the crawl carries `meret_min = 31.0` — the expanded bound — not the
original user value 50. -/
theorem c6_counterexample :
    List.lookup "meret_min"
        (results_logged_filters (PyVal.vStr "lakas") (PyVal.vStr "budapest08")
          PyVal.vNone PyVal.vNone PyVal.vNone PyVal.vNone (some 50) (some 70)) =
      some (PyVal.vNum 31) ∧
      PyVal.vNum 31 ≠ PyVal.vNum (50 : ℚ) := by
  decide

/-- C6 amended: when the search carries a size bound, the SearchRecord
appended after the crawl stores the *expanded* size range produced by
`get_required_intervals_for_search`, while all non-size fields keep their
original values. -/
theorem c6_logged_record_has_expanded_sizes
    (ptype location min_price max_price min_rooms max_rooms : PyVal)
    (min_size max_size : Option ℚ)
    (h : min_size.isSome ∨ max_size.isSome) :
    List.lookup "meret_min" (results_logged_filters ptype location min_price
          max_price min_rooms max_rooms min_size max_size) =
        some (optQ (get_required_intervals_for_search min_size max_size).1) ∧
      List.lookup "meret_max" (results_logged_filters ptype location min_price
          max_price min_rooms max_rooms min_size max_size) =
        some (optQ (get_required_intervals_for_search min_size max_size).2) ∧
      List.lookup "jelleg" (results_logged_filters ptype location min_price
          max_price min_rooms max_rooms min_size max_size) = some ptype ∧
      List.lookup "ar_min" (results_logged_filters ptype location min_price
          max_price min_rooms max_rooms min_size max_size) = some min_price ∧
      List.lookup "elhelyezkedes" (results_logged_filters ptype location
          min_price max_price min_rooms max_rooms min_size max_size) =
        some location := by
  have hb : (min_size.isSome || max_size.isSome) = true := by
    rcases h with h | h <;> simp [h]
  simp only [results_logged_filters, hb, if_true]
  refine ⟨?_, ?_, ?_, ?_, ?_⟩ <;> simp +decide [List.lookup]

/-- Witness for `c6_logged_record_has_expanded_sizes` at the 50–70㎡
search. -/
theorem c6_logged_witness :
    List.lookup "meret_min"
          (results_logged_filters (PyVal.vStr "lakas")
            (PyVal.vStr "budapest08") PyVal.vNone PyVal.vNone PyVal.vNone
            PyVal.vNone (some 50) (some 70)) =
        some (optQ (get_required_intervals_for_search (some 50) (some 70)).1) ∧
      List.lookup "meret_max"
          (results_logged_filters (PyVal.vStr "lakas")
            (PyVal.vStr "budapest08") PyVal.vNone PyVal.vNone PyVal.vNone
            PyVal.vNone (some 50) (some 70)) =
        some (optQ (get_required_intervals_for_search (some 50) (some 70)).2) ∧
      List.lookup "jelleg"
          (results_logged_filters (PyVal.vStr "lakas")
            (PyVal.vStr "budapest08") PyVal.vNone PyVal.vNone PyVal.vNone
            PyVal.vNone (some 50) (some 70)) = some (PyVal.vStr "lakas") ∧
      List.lookup "ar_min"
          (results_logged_filters (PyVal.vStr "lakas")
            (PyVal.vStr "budapest08") PyVal.vNone PyVal.vNone PyVal.vNone
            PyVal.vNone (some 50) (some 70)) = some PyVal.vNone ∧
      List.lookup "elhelyezkedes"
          (results_logged_filters (PyVal.vStr "lakas")
            (PyVal.vStr "budapest08") PyVal.vNone PyVal.vNone PyVal.vNone
            PyVal.vNone (some 50) (some 70)) = some (PyVal.vStr "budapest08") :=
  c6_logged_record_has_expanded_sizes _ _ _ _ _ _ (some 50) (some 70)
    (Or.inl (by decide))
